import Mathlib

/-!
Shallow embedding of `upload_image_and_add_to_slide_v2.py`, the single source
file of the repository: a script that uploads a local image to a cloud storage
bucket, signs a short-lived download URL for it, places the image on a Google
Slides page (replacing any prior element with the same identifier), and then
deletes the temporary storage object.

The pure request-building logic of `add_image_to_slide` is translated directly
from the Python source.  The two remote services (object store, presentation
service) are external collaborators of the script; their documented contracts
(batch operations applied in order, page reads, object upload and deletion)
are modelled explicitly so that end-to-end effects of the script can be stated.
-/

namespace SlidesUploader

/-- A magnitude/unit pair, mirroring the `emu4M` dictionary of the source
(magnitude 4000000, unit EMU, lines 95-98). -/
structure Dimension where
  magnitude : Int
  unit : String
deriving DecidableEq, Repr

/-- The `emu4M` constant of `add_image_to_slide` (source lines 95-98). -/
def emu4M : Dimension := { magnitude := 4000000, unit := "EMU" }

/-- The `size` sub-dictionary of `elementProperties` (source lines 128-131). -/
structure ElementSize where
  height : Dimension
  width : Dimension
deriving DecidableEq, Repr

/-- The `transform` sub-dictionary of `elementProperties` (source lines
132-138): the caller-supplied scale and translation values plus the EMU unit. -/
structure Transform where
  scaleX : Rat
  scaleY : Rat
  translateX : Rat
  translateY : Rat
  unit : String
deriving DecidableEq, Repr

/-- The `elementProperties` dictionary of the `createImage` request (source
lines 126-139). -/
structure ElementProperties where
  pageObjectId : String
  size : ElementSize
  transform : Transform
deriving DecidableEq, Repr

/-- The payload of a `createImage` request (source lines 122-141). -/
structure CreateImageRequest where
  objectId : String
  url : String
  elementProperties : ElementProperties
deriving DecidableEq, Repr

/-- One entry of the `requests` list sent to `batchUpdate`: either a
`deleteObject` request (source line 115) or a `createImage` request (source
lines 122-141). -/
inductive SlidesRequest where
  | deleteObject (objectId : String)
  | createImage (c : CreateImageRequest)
deriving DecidableEq, Repr

/-- Whether a request is a `createImage` request. -/
def SlidesRequest.isCreateImage : SlidesRequest → Bool
  | .createImage _ => true
  | .deleteObject _ => false

/-- Whether a request is a `deleteObject` request. -/
def SlidesRequest.isDeleteObject : SlidesRequest → Bool
  | .createImage _ => false
  | .deleteObject _ => true

/-- The object identifier carried by a request (the `objectId` field of either
request kind). -/
def SlidesRequest.objectId : SlidesRequest → String
  | .deleteObject i => i
  | .createImage c => c.objectId

/-- One member of the `pageElements` list of a page-read response; `objectId`
is the key the source reads from each element dictionary (line 112). -/
structure PageElement where
  objectId : String
deriving DecidableEq, Repr

/-- The `objects_on_page` list built by `add_image_to_slide` (source lines
104-112): the object id of every page element, or the empty list when the
page-read response has no `pageElements` key (`none`). -/
def objects_on_page (page_info : Option (List PageElement)) : List String :=
  match page_info with
  | some pageElements => pageElements.map PageElement.objectId
  | none => []

/-- The `requests` list built by `add_image_to_slide` and submitted as the
body of `batchUpdate` (source lines 100-145): a `deleteObject` request for
`image_name` when that id is already among the object ids on the page,
followed by the `createImage` request with the 4,000,000 EMU square size and
the caller-supplied transform.  `page_info` is the page-read response
(`none` models a response carrying no `pageElements` key). -/
def add_image_to_slide_requests (image_url image_name page_object_id : String)
    (scaleX scaleY translateX translateY : Rat)
    (page_info : Option (List PageElement)) : List SlidesRequest :=
  let requests : List SlidesRequest :=
    if image_name ∈ objects_on_page page_info then
      [SlidesRequest.deleteObject image_name]
    else []
  requests ++ [SlidesRequest.createImage {
    objectId := image_name,
    url := image_url,
    elementProperties := {
      pageObjectId := page_object_id,
      size := { height := emu4M, width := emu4M },
      transform := {
        scaleX := scaleX, scaleY := scaleY,
        translateX := translateX, translateY := translateY,
        unit := "EMU" } } }]

/-- Modelled from the spec (section 4.2 and the out-of-scope contract of
section 1): the presentation service applies each batch operation in request
order; `deleteObject` removes the element with the given identifier from the
page, `createImage` adds an image element carrying its identifier. -/
def applyRequest (page : List PageElement) : SlidesRequest → List PageElement
  | .deleteObject objectId => page.filter (fun e => e.objectId != objectId)
  | .createImage c => page ++ [{ objectId := c.objectId }]

/-- Modelled from the spec: `applyBatch` submits an ordered list of operations
and the service applies them in list order within one atomic call. -/
def applyBatch (page : List PageElement) (requests : List SlidesRequest) :
    List PageElement :=
  requests.foldl applyRequest page

/-- Modelled from the spec and the source comment on line 109: the page-read
response of the presentation service carries no `pageElements` key when the
page is blank, and otherwise lists the elements of the page. -/
def pagesGet (page : List PageElement) : Option (List PageElement) :=
  match page with
  | [] => none
  | _ => some page

/-- One full invocation of `add_image_to_slide` (source lines 86-150) acting
on a page state: read the page, build the batch, and apply it through the
presentation service. -/
def add_image_to_slide_step (image_url image_name page_object_id : String)
    (scaleX scaleY translateX translateY : Rat)
    (page : List PageElement) : List PageElement :=
  applyBatch page
    (add_image_to_slide_requests image_url image_name page_object_id
      scaleX scaleY translateX translateY (pagesGet page))

/-- The number of elements on a page whose object id equals `image_name`. -/
def countId (image_name : String) (page : List PageElement) : Nat :=
  page.countP (fun e => e.objectId == image_name)

/-- The expiration argument of the signing request: `datetime.timedelta
(minutes=1)` (source line 75), converted to seconds. -/
def timedeltaMinutes (m : Nat) : Nat := m * 60

/-- The keyword arguments the source passes to `blob.generate_signed_url`
(source lines 73-79). -/
structure SignedUrlRequest where
  version : String
  expirationSeconds : Nat
  method : String
deriving DecidableEq, Repr

/-- Mirrors `generate_download_signed_url_v4` (source lines 57-82): it builds
the signing request with version v4, a one-minute expiration and the GET
method, and returns the URL produced by the signer for that request.  The
`signer` argument abstracts `blob.generate_signed_url` of the storage SDK. -/
def generate_download_signed_url_v4
    (signer : String → String → SignedUrlRequest → String)
    (bucket_name blob_name : String) : SignedUrlRequest × String :=
  let req : SignedUrlRequest :=
    { version := "v4", expirationSeconds := timedeltaMinutes 1, method := "GET" }
  (req, signer bucket_name blob_name req)

/-- One external call made by the orchestrator: the storage upload (source
line 197 via `upload_blob`), the signed-URL generation (line 200), the
`batchUpdate` submission inside `add_image_to_slide` (lines 146-147), or the
storage deletion (line 207 via `delete_blob`). -/
inductive CallKind where
  | uploadBlob (bucket_name source_file_path destination_blob_name : String)
  | generateSignedUrl (bucket_name blob_name : String) (req : SignedUrlRequest)
  | batchUpdate (presentation_id : String) (requests : List SlidesRequest)
  | deleteBlob (bucket_name blob_name : String)
deriving DecidableEq, Repr

/-- An external call together with the instants at which it was invoked and at
which it returned. -/
structure TimedCall where
  call : CallKind
  startTime : Rat
  endTime : Rat
deriving DecidableEq, Repr

/-- The environment of one run: whether each external call succeeds (a false
flag means the call raises), how long each call takes, the wall-clock time at
which the run starts, the page state the presentation service reports, and the
URL the storage SDK signer returns. -/
structure Env where
  uploadOk : Bool
  signOk : Bool
  placementOk : Bool
  deleteOk : Bool
  uploadDur : Rat
  signDur : Rat
  placementDur : Rat
  deleteDur : Rat
  startTime : Rat
  page : List PageElement
  signedUrl : String
deriving DecidableEq, Repr

/-- The arguments of `upload_image_and_add_to_slide` (source line 166). -/
structure OrchestratorArgs where
  image_folder_path : String
  image_file_name : String
  image_file_extension : String
  service_account_path : String
  scopes : List String
  presentation_id : String
  page_object_id : String
  bucket_name : String
  scaleX : Rat
  scaleY : Rat
  translateX : Rat
  translateY : Rat
deriving DecidableEq, Repr

/-- The observable outcome of one run: the external calls made (in order,
with their timestamps), whether the run completed, the recorded timestamps
`time_image_becomes_accessible` (source line 201) and
`time_image_is_no_longer_accessible` (line 208), and the final metric line
printed on line 210. -/
structure RunResult where
  calls : List TimedCall
  success : Bool
  t0 : Option Rat
  t1 : Option Rat
  printed : Option String
deriving DecidableEq, Repr

/-- Fixed-point rendering with four digits after the decimal point, modelling
the Python format specification `.4f` applied on line 210 to the non-negative
elapsed time. -/
def formatFixed4 (q : Rat) : String :=
  let n : Int := ⌊q * 10000 + 1 / 2⌋
  let m : Nat := n.toNat
  toString (m / 10000) ++ "." ++
    String.mk [Nat.digitChar (m / 1000 % 10), Nat.digitChar (m / 100 % 10),
      Nat.digitChar (m / 10 % 10), Nat.digitChar (m % 10)]

/-- Mirrors `upload_image_and_add_to_slide` (source lines 166-211): compose
the local file path, upload the image under the extension-free file name,
sign a download URL for it and record `time_image_becomes_accessible`, run
`add_image_to_slide` (page read plus `batchUpdate`), delete the storage
object, record `time_image_is_no_longer_accessible`, and print the elapsed
accessible time with four decimals.  A step whose environment flag is false
raises: its call is recorded and nothing after it executes. -/
def upload_image_and_add_to_slide (env : Env) (a : OrchestratorArgs) :
    RunResult :=
  let image_file_path :=
    a.image_folder_path ++ a.image_file_name ++ a.image_file_extension
  let uploadEnd := env.startTime + env.uploadDur
  let uploadCall : TimedCall :=
    ⟨CallKind.uploadBlob a.bucket_name image_file_path a.image_file_name,
      env.startTime, uploadEnd⟩
  if env.uploadOk then
    let signed := generate_download_signed_url_v4
      (fun _ _ _ => env.signedUrl) a.bucket_name a.image_file_name
    let signEnd := uploadEnd + env.signDur
    let signCall : TimedCall :=
      ⟨CallKind.generateSignedUrl a.bucket_name a.image_file_name signed.1,
        uploadEnd, signEnd⟩
    if env.signOk then
      let time_image_becomes_accessible := signEnd
      let requests := add_image_to_slide_requests signed.2 a.image_file_name
        a.page_object_id a.scaleX a.scaleY a.translateX a.translateY
        (pagesGet env.page)
      let placementEnd := signEnd + env.placementDur
      let batchCall : TimedCall :=
        ⟨CallKind.batchUpdate a.presentation_id requests, signEnd, placementEnd⟩
      if env.placementOk then
        let deleteEnd := placementEnd + env.deleteDur
        let deleteCall : TimedCall :=
          ⟨CallKind.deleteBlob a.bucket_name a.image_file_name,
            placementEnd, deleteEnd⟩
        if env.deleteOk then
          let time_image_is_no_longer_accessible := deleteEnd
          let time_image_was_accessible :=
            time_image_is_no_longer_accessible - time_image_becomes_accessible
          { calls := [uploadCall, signCall, batchCall, deleteCall],
            success := true,
            t0 := some time_image_becomes_accessible,
            t1 := some time_image_is_no_longer_accessible,
            printed := some ("Image was accessible for " ++
              formatFixed4 time_image_was_accessible ++ " second(s).") }
        else
          { calls := [uploadCall, signCall, batchCall, deleteCall],
            success := false,
            t0 := some time_image_becomes_accessible, t1 := none,
            printed := none }
      else
        { calls := [uploadCall, signCall, batchCall], success := false,
          t0 := some time_image_becomes_accessible, t1 := none,
          printed := none }
    else
      { calls := [uploadCall, signCall], success := false,
        t0 := none, t1 := none, printed := none }
  else
    { calls := [uploadCall], success := false,
      t0 := none, t1 := none, printed := none }

/-- Modelled from the spec (section 1, object storage contract): the effect of
one external call on the set of object keys stored in the bucket.  An upload
stores the object under its destination key; a deletion removes it; the other
calls leave the bucket unchanged. -/
def callEffect (store : List String) : CallKind → List String
  | .uploadBlob _ _ destination_blob_name =>
      if destination_blob_name ∈ store then store
      else store ++ [destination_blob_name]
  | .deleteBlob _ blob_name => store.filter (fun k => k != blob_name)
  | .generateSignedUrl _ _ _ => store
  | .batchUpdate _ _ => store

/-- The bucket contents after a sequence of external calls. -/
def storeAfter (store : List String) (calls : List CallKind) : List String :=
  calls.foldl callEffect store

/-- Whether a call is the storage `delete_blob` call. -/
def CallKind.isDeleteBlob : CallKind → Bool
  | .deleteBlob _ _ => true
  | .uploadBlob _ _ _ => false
  | .generateSignedUrl _ _ _ => false
  | .batchUpdate _ _ => false

/-- A concrete environment in which every call succeeds and each call has an
explicit positive duration. -/
def envSample : Env :=
  { uploadOk := true, signOk := true, placementOk := true, deleteOk := true,
    uploadDur := 1, signDur := 2, placementDur := 2, deleteDur := 5,
    startTime := 0, page := [], signedUrl := "https://storage.example/signed" }

/-- Concrete orchestrator arguments used to evaluate the model. -/
def argsSample : OrchestratorArgs :=
  { image_folder_path := "pictures/", image_file_name := "image_1",
    image_file_extension := ".png", service_account_path := "credentials.json",
    scopes := ["https://www.googleapis.com/auth/presentations"],
    presentation_id := "pres", page_object_id := "slide1",
    bucket_name := "bucket", scaleX := 9/5, scaleY := 9/5,
    translateX := 1100000, translateY := -500000 }

/-- A concrete environment in which the placement batch call raises and
everything before it succeeds. -/
def envPlacementFail : Env :=
  { envSample with placementOk := false }

theorem countId_append (image_name : String) (l1 l2 : List PageElement) :
    countId image_name (l1 ++ l2) = countId image_name l1 + countId image_name l2 := by
  simp [countId, List.countP_append]

theorem countId_filter_self (image_name : String) (l : List PageElement) :
    countId image_name (l.filter fun e => e.objectId != image_name) = 0 := by
  simp only [countId, List.countP_eq_zero]
  intro e he
  rcases List.mem_filter.mp he with ⟨-, hne⟩
  simp only [bne_iff_ne, ne_eq] at hne
  simp [hne]

theorem countId_eq_zero_of_not_mem (image_name : String) (l : List PageElement)
    (h : image_name ∉ l.map PageElement.objectId) : countId image_name l = 0 := by
  simp only [countId, List.countP_eq_zero]
  intro e he
  simp only [beq_iff_eq]
  intro heq
  exact h (List.mem_map.mpr ⟨e, he, heq⟩)

theorem countId_step (image_url image_name page_object_id : String)
    (scaleX scaleY translateX translateY : Rat) (page : List PageElement) :
    countId image_name (add_image_to_slide_step image_url image_name
      page_object_id scaleX scaleY translateX translateY page) = 1 := by
  unfold add_image_to_slide_step applyBatch add_image_to_slide_requests
  by_cases h : image_name ∈ objects_on_page (pagesGet page)
  · rw [if_pos h]
    simp only [List.cons_append, List.nil_append, List.foldl_cons, List.foldl_nil]
    show countId image_name
      (applyRequest (applyRequest page (SlidesRequest.deleteObject image_name)) _) = 1
    simp only [applyRequest, countId_append]
    rw [countId_filter_self]
    simp [countId]
  · rw [if_neg h]
    simp only [List.nil_append, List.foldl_cons, List.foldl_nil]
    show countId image_name (applyRequest page _) = 1
    simp only [applyRequest, countId_append]
    have hz : countId image_name page = 0 := by
      cases page with
      | nil => simp [countId]
      | cons e es =>
          apply countId_eq_zero_of_not_mem
          simpa [pagesGet, objects_on_page] using h
    rw [hz]
    simp [countId]

theorem mem_objectIds_of_countId_pos (image_name : String) (l : List PageElement)
    (h : 0 < countId image_name l) : image_name ∈ l.map PageElement.objectId := by
  rcases List.countP_pos_iff.mp h with ⟨e, he, hp⟩
  exact List.mem_map.mpr ⟨e, he, by simpa using hp⟩

theorem pagesGet_of_countId_one (image_name : String) (l : List PageElement)
    (h : countId image_name l = 1) :
    pagesGet l = some l ∧ image_name ∈ l.map PageElement.objectId := by
  refine ⟨?_, mem_objectIds_of_countId_pos _ _ (by omega)⟩
  cases l with
  | nil => simp [countId] at h
  | cons e es => rfl

/-- C1: invoking `add_image_to_slide` twice with the same `image_name` and
page leaves exactly one element with that identifier on the page; the second
invocation builds a batch that deletes the element created by the first before creating
the new one, so placement is idempotent with respect to identifier. -/
theorem placement_idempotent (url url2 image_name page_object_id : String)
    (sx sy tx ty sx2 sy2 tx2 ty2 : Rat) (page : List PageElement) :
    countId image_name
      (add_image_to_slide_step url2 image_name page_object_id sx2 sy2 tx2 ty2
        (add_image_to_slide_step url image_name page_object_id sx sy tx ty page)) = 1 ∧
    add_image_to_slide_requests url2 image_name page_object_id sx2 sy2 tx2 ty2
      (pagesGet (add_image_to_slide_step url image_name page_object_id sx sy tx ty page)) =
      [SlidesRequest.deleteObject image_name,
       SlidesRequest.createImage ⟨image_name, url2,
         ⟨page_object_id, ⟨emu4M, emu4M⟩, ⟨sx2, sy2, tx2, ty2, "EMU"⟩⟩⟩] := by
  refine ⟨countId_step _ _ _ _ _ _ _ _, ?_⟩
  have h1 := countId_step url image_name page_object_id sx sy tx ty page
  rcases pagesGet_of_countId_one _ _ h1 with ⟨hget, hmem⟩
  rw [hget]
  unfold add_image_to_slide_requests
  rw [if_pos (by simpa [objects_on_page] using hmem)]
  rfl

/-- C2: whenever the target `image_name` already appears among the page
element identifiers, the batch built by `add_image_to_slide` contains the
`deleteObject` request for that identifier at an earlier position than the
`createImage` request for the same identifier. -/
theorem deleteObject_precedes_createImage
    (image_url image_name page_object_id : String) (sx sy tx ty : Rat)
    (page_info : Option (List PageElement))
    (h : image_name ∈ objects_on_page page_info) :
    ∃ i j : Nat, i < j ∧
      (add_image_to_slide_requests image_url image_name page_object_id
        sx sy tx ty page_info)[i]? = some (SlidesRequest.deleteObject image_name) ∧
      (add_image_to_slide_requests image_url image_name page_object_id
        sx sy tx ty page_info)[j]? = some (SlidesRequest.createImage
          ⟨image_name, image_url,
            ⟨page_object_id, ⟨emu4M, emu4M⟩, ⟨sx, sy, tx, ty, "EMU"⟩⟩⟩) := by
  refine ⟨0, 1, Nat.zero_lt_one, ?_, ?_⟩ <;>
    simp [add_image_to_slide_requests, h]

/-- Witness for C2 at a concrete page snapshot containing the identifier. -/
theorem deleteObject_precedes_createImage_witness :
    "image_1" ∈ objects_on_page (some [⟨"image_1"⟩, ⟨"other"⟩]) ∧
    ∃ i j : Nat, i < j ∧
      (add_image_to_slide_requests "https://u" "image_1" "slide1"
        1 1 0 0 (some [⟨"image_1"⟩, ⟨"other"⟩]))[i]? =
          some (SlidesRequest.deleteObject "image_1") ∧
      (add_image_to_slide_requests "https://u" "image_1" "slide1"
        1 1 0 0 (some [⟨"image_1"⟩, ⟨"other"⟩]))[j]? =
          some (SlidesRequest.createImage ⟨"image_1", "https://u",
            ⟨"slide1", ⟨emu4M, emu4M⟩, ⟨1, 1, 0, 0, "EMU"⟩⟩⟩) :=
  ⟨by decide, deleteObject_precedes_createImage "https://u" "image_1" "slide1"
    1 1 0 0 (some [⟨"image_1"⟩, ⟨"other"⟩]) (by decide)⟩

/-- C3: when the element-id snapshot of the page is empty (no elements, or a
page-read response with no `pageElements` field at all), the batch built by
`add_image_to_slide` is the single `createImage` request and contains no
`deleteObject` request. -/
theorem empty_page_create_only
    (image_url image_name page_object_id : String) (sx sy tx ty : Rat)
    (page_info : Option (List PageElement))
    (h : objects_on_page page_info = []) :
    add_image_to_slide_requests image_url image_name page_object_id
      sx sy tx ty page_info =
      [SlidesRequest.createImage ⟨image_name, image_url,
        ⟨page_object_id, ⟨emu4M, emu4M⟩, ⟨sx, sy, tx, ty, "EMU"⟩⟩⟩] := by
  simp [add_image_to_slide_requests, h]

/-- Witness for C3 at the page-read response with no `pageElements` field. -/
theorem empty_page_create_only_witness :
    objects_on_page (none : Option (List PageElement)) = [] ∧
    add_image_to_slide_requests "https://u" "image_1" "slide1" 1 1 0 0 none =
      [SlidesRequest.createImage ⟨"image_1", "https://u",
        ⟨"slide1", ⟨emu4M, emu4M⟩, ⟨1, 1, 0, 0, "EMU"⟩⟩⟩] :=
  ⟨by decide, empty_page_create_only "https://u" "image_1" "slide1"
    1 1 0 0 none (by decide)⟩

/-- C7: `generate_download_signed_url_v4` always requests a V4-scheme signed
URL with a validity fixed at exactly one minute and the GET method only, and
returns the URL the signer produced for that request. -/
theorem signed_url_v4_one_minute_get
    (signer : String → String → SignedUrlRequest → String)
    (bucket_name blob_name : String) :
    (generate_download_signed_url_v4 signer bucket_name blob_name).1.version = "v4" ∧
    (generate_download_signed_url_v4 signer bucket_name blob_name).1.expirationSeconds =
      timedeltaMinutes 1 ∧
    timedeltaMinutes 1 = 60 ∧
    (generate_download_signed_url_v4 signer bucket_name blob_name).1.method = "GET" ∧
    (generate_download_signed_url_v4 signer bucket_name blob_name).2 =
      signer bucket_name blob_name
        (generate_download_signed_url_v4 signer bucket_name blob_name).1 :=
  ⟨rfl, rfl, rfl, rfl, rfl⟩

/-- C8: every `createImage` request built by `add_image_to_slide` carries the
square size of exactly 4,000,000 EMU by 4,000,000 EMU together with the
caller-supplied transform in EMU units. -/
theorem createImage_size_and_transform
    (image_url image_name page_object_id : String) (sx sy tx ty : Rat)
    (page_info : Option (List PageElement)) (c : CreateImageRequest)
    (h : SlidesRequest.createImage c ∈ add_image_to_slide_requests
      image_url image_name page_object_id sx sy tx ty page_info) :
    c.elementProperties.size = ⟨emu4M, emu4M⟩ ∧
    emu4M.magnitude = 4000000 ∧ emu4M.unit = "EMU" ∧
    c.elementProperties.transform = ⟨sx, sy, tx, ty, "EMU"⟩ := by
  unfold add_image_to_slide_requests at h
  rcases List.mem_append.mp h with h1 | h2
  · by_cases hm : image_name ∈ objects_on_page page_info
    · rw [if_pos hm] at h1
      simp at h1
    · rw [if_neg hm] at h1
      simp at h1
  · have hc := List.mem_singleton.mp h2
    injection hc with hc2
    subst hc2
    exact ⟨rfl, rfl, rfl, rfl⟩

/-- Witness for C8 at a concrete batch. -/
theorem createImage_size_and_transform_witness :
    SlidesRequest.createImage
        ⟨"image_1", "https://u", ⟨"slide1", ⟨emu4M, emu4M⟩, ⟨1, 1, 0, 0, "EMU"⟩⟩⟩ ∈
      add_image_to_slide_requests "https://u" "image_1" "slide1" 1 1 0 0 none ∧
    ((⟨"image_1", "https://u", ⟨"slide1", ⟨emu4M, emu4M⟩,
        ⟨1, 1, 0, 0, "EMU"⟩⟩⟩ : CreateImageRequest).elementProperties.size =
      ⟨emu4M, emu4M⟩ ∧
    emu4M.magnitude = 4000000 ∧ emu4M.unit = "EMU" ∧
    (⟨"image_1", "https://u", ⟨"slide1", ⟨emu4M, emu4M⟩,
        ⟨1, 1, 0, 0, "EMU"⟩⟩⟩ : CreateImageRequest).elementProperties.transform =
      ⟨1, 1, 0, 0, "EMU"⟩) :=
  ⟨by decide, createImage_size_and_transform "https://u" "image_1" "slide1"
    1 1 0 0 none _ (by decide)⟩

/-- C10: for every page snapshot, the batch built by `add_image_to_slide`
contains exactly one `createImage` request, which is the last request, and at
most one `deleteObject` request, and the batch depends only on whether
`image_name` is a member of the snapshot, not on order or multiplicity. -/
theorem batch_shape (image_url image_name page_object_id : String)
    (sx sy tx ty : Rat) (page_info : Option (List PageElement)) :
    (add_image_to_slide_requests image_url image_name page_object_id
      sx sy tx ty page_info).countP SlidesRequest.isCreateImage = 1 ∧
    (add_image_to_slide_requests image_url image_name page_object_id
      sx sy tx ty page_info).getLast? =
      some (SlidesRequest.createImage ⟨image_name, image_url,
        ⟨page_object_id, ⟨emu4M, emu4M⟩, ⟨sx, sy, tx, ty, "EMU"⟩⟩⟩) ∧
    (add_image_to_slide_requests image_url image_name page_object_id
      sx sy tx ty page_info).countP SlidesRequest.isDeleteObject ≤ 1 ∧
    ∀ page_info2 : Option (List PageElement),
      (image_name ∈ objects_on_page page_info ↔
        image_name ∈ objects_on_page page_info2) →
      add_image_to_slide_requests image_url image_name page_object_id
        sx sy tx ty page_info2 =
      add_image_to_slide_requests image_url image_name page_object_id
        sx sy tx ty page_info := by
  have key : ∀ (pi : Option (List PageElement)),
      image_name ∈ objects_on_page pi →
      add_image_to_slide_requests image_url image_name page_object_id
        sx sy tx ty pi =
        [SlidesRequest.deleteObject image_name,
         SlidesRequest.createImage ⟨image_name, image_url,
           ⟨page_object_id, ⟨emu4M, emu4M⟩, ⟨sx, sy, tx, ty, "EMU"⟩⟩⟩] := by
    intro pi hpi
    unfold add_image_to_slide_requests
    rw [if_pos hpi]
    rfl
  have key2 : ∀ (pi : Option (List PageElement)),
      image_name ∉ objects_on_page pi →
      add_image_to_slide_requests image_url image_name page_object_id
        sx sy tx ty pi =
        [SlidesRequest.createImage ⟨image_name, image_url,
          ⟨page_object_id, ⟨emu4M, emu4M⟩, ⟨sx, sy, tx, ty, "EMU"⟩⟩⟩] := by
    intro pi hpi
    unfold add_image_to_slide_requests
    rw [if_neg hpi]
    rfl
  by_cases hm : image_name ∈ objects_on_page page_info
  · rw [key _ hm]
    refine ⟨rfl, rfl, Nat.le_refl 1, ?_⟩
    intro pi2 hiff
    rw [key _ (hiff.mp hm)]
  · rw [key2 _ hm]
    refine ⟨rfl, rfl, Nat.zero_le 1, ?_⟩
    intro pi2 hiff
    rw [key2 _ (fun hx => hm (hiff.mpr hx))]

/-- Witness for C10 at a snapshot in which the identifier occurs twice. -/
theorem batch_shape_witness :
    (add_image_to_slide_requests "https://u" "image_1" "slide1" 1 1 0 0
      (some [⟨"image_1"⟩, ⟨"image_1"⟩])).countP SlidesRequest.isCreateImage = 1 ∧
    (add_image_to_slide_requests "https://u" "image_1" "slide1" 1 1 0 0
      (some [⟨"image_1"⟩, ⟨"image_1"⟩])).getLast? =
      some (SlidesRequest.createImage ⟨"image_1", "https://u",
        ⟨"slide1", ⟨emu4M, emu4M⟩, ⟨1, 1, 0, 0, "EMU"⟩⟩⟩) ∧
    (add_image_to_slide_requests "https://u" "image_1" "slide1" 1 1 0 0
      (some [⟨"image_1"⟩, ⟨"image_1"⟩])).countP SlidesRequest.isDeleteObject ≤ 1 ∧
    ∀ page_info2 : Option (List PageElement),
      ("image_1" ∈ objects_on_page (some [⟨"image_1"⟩, ⟨"image_1"⟩]) ↔
        "image_1" ∈ objects_on_page page_info2) →
      add_image_to_slide_requests "https://u" "image_1" "slide1" 1 1 0 0
        page_info2 =
      add_image_to_slide_requests "https://u" "image_1" "slide1" 1 1 0 0
        (some [⟨"image_1"⟩, ⟨"image_1"⟩]) :=
  batch_shape "https://u" "image_1" "slide1" 1 1 0 0
    (some [⟨"image_1"⟩, ⟨"image_1"⟩])

theorem calls_shape (env : Env) (a : OrchestratorArgs) :
    (upload_image_and_add_to_slide env a).calls.map TimedCall.call =
      CallKind.uploadBlob a.bucket_name
        (a.image_folder_path ++ a.image_file_name ++ a.image_file_extension)
        a.image_file_name ::
      (if env.uploadOk then
        CallKind.generateSignedUrl a.bucket_name a.image_file_name
          ⟨"v4", timedeltaMinutes 1, "GET"⟩ ::
        (if env.signOk then
          CallKind.batchUpdate a.presentation_id
            (add_image_to_slide_requests env.signedUrl a.image_file_name
              a.page_object_id a.scaleX a.scaleY a.translateX a.translateY
              (pagesGet env.page)) ::
          (if env.placementOk then
            [CallKind.deleteBlob a.bucket_name a.image_file_name]
          else [])
        else [])
      else []) := by
  obtain ⟨uOk, sOk, pOk, dOk, uD, sD, pD, dD, st, pg, su⟩ := env
  cases uOk <;> cases sOk <;> cases pOk <;> cases dOk <;>
    simp [upload_image_and_add_to_slide, generate_download_signed_url_v4]

/-- C4: when the placement batch call raises, the storage delete is never
invoked; more generally, a failing step ends the run, no later call is made,
and after a failed placement the uploaded object is still in the bucket. -/
theorem cleanup_skipped_on_placement_failure (env : Env) (a : OrchestratorArgs)
    (initStore : List String) :
    (env.placementOk = false →
      ∀ tc ∈ (upload_image_and_add_to_slide env a).calls,
        tc.call.isDeleteBlob = false) ∧
    (env.uploadOk = false →
      (upload_image_and_add_to_slide env a).calls.map TimedCall.call =
        [CallKind.uploadBlob a.bucket_name
          (a.image_folder_path ++ a.image_file_name ++ a.image_file_extension)
          a.image_file_name]) ∧
    (env.uploadOk = true → env.signOk = false →
      (upload_image_and_add_to_slide env a).calls.map TimedCall.call =
        [CallKind.uploadBlob a.bucket_name
          (a.image_folder_path ++ a.image_file_name ++ a.image_file_extension)
          a.image_file_name,
         CallKind.generateSignedUrl a.bucket_name a.image_file_name
          ⟨"v4", timedeltaMinutes 1, "GET"⟩]) ∧
    (env.placementOk = false → env.uploadOk = true → env.signOk = true →
      (upload_image_and_add_to_slide env a).calls.map TimedCall.call =
        [CallKind.uploadBlob a.bucket_name
          (a.image_folder_path ++ a.image_file_name ++ a.image_file_extension)
          a.image_file_name,
         CallKind.generateSignedUrl a.bucket_name a.image_file_name
          ⟨"v4", timedeltaMinutes 1, "GET"⟩,
         CallKind.batchUpdate a.presentation_id
          (add_image_to_slide_requests env.signedUrl a.image_file_name
            a.page_object_id a.scaleX a.scaleY a.translateX a.translateY
            (pagesGet env.page))] ∧
      a.image_file_name ∈ storeAfter initStore
        ((upload_image_and_add_to_slide env a).calls.map TimedCall.call)) := by
  obtain ⟨uOk, sOk, pOk, dOk, uD, sD, pD, dD, st, pg, su⟩ := env
  by_cases hk : a.image_file_name ∈ initStore <;>
    cases uOk <;> cases sOk <;> cases pOk <;> cases dOk <;>
      simp [upload_image_and_add_to_slide, generate_download_signed_url_v4,
        CallKind.isDeleteBlob, storeAfter, callEffect, hk]

/-- Witness for C4: a run whose placement call fails after a successful
upload and URL signing. -/
theorem cleanup_skipped_on_placement_failure_witness :
    envPlacementFail.placementOk = false ∧
    ((envPlacementFail.placementOk = false →
      ∀ tc ∈ (upload_image_and_add_to_slide envPlacementFail argsSample).calls,
        tc.call.isDeleteBlob = false) ∧
    (envPlacementFail.uploadOk = false →
      (upload_image_and_add_to_slide envPlacementFail argsSample).calls.map
          TimedCall.call =
        [CallKind.uploadBlob argsSample.bucket_name
          (argsSample.image_folder_path ++ argsSample.image_file_name ++
            argsSample.image_file_extension)
          argsSample.image_file_name]) ∧
    (envPlacementFail.uploadOk = true → envPlacementFail.signOk = false →
      (upload_image_and_add_to_slide envPlacementFail argsSample).calls.map
          TimedCall.call =
        [CallKind.uploadBlob argsSample.bucket_name
          (argsSample.image_folder_path ++ argsSample.image_file_name ++
            argsSample.image_file_extension)
          argsSample.image_file_name,
         CallKind.generateSignedUrl argsSample.bucket_name
          argsSample.image_file_name ⟨"v4", timedeltaMinutes 1, "GET"⟩]) ∧
    (envPlacementFail.placementOk = false →
      envPlacementFail.uploadOk = true → envPlacementFail.signOk = true →
      (upload_image_and_add_to_slide envPlacementFail argsSample).calls.map
          TimedCall.call =
        [CallKind.uploadBlob argsSample.bucket_name
          (argsSample.image_folder_path ++ argsSample.image_file_name ++
            argsSample.image_file_extension)
          argsSample.image_file_name,
         CallKind.generateSignedUrl argsSample.bucket_name
          argsSample.image_file_name ⟨"v4", timedeltaMinutes 1, "GET"⟩,
         CallKind.batchUpdate argsSample.presentation_id
          (add_image_to_slide_requests envPlacementFail.signedUrl
            argsSample.image_file_name argsSample.page_object_id
            argsSample.scaleX argsSample.scaleY argsSample.translateX
            argsSample.translateY (pagesGet envPlacementFail.page))] ∧
      argsSample.image_file_name ∈ storeAfter []
        ((upload_image_and_add_to_slide envPlacementFail argsSample).calls.map
          TimedCall.call))) :=
  ⟨rfl, cleanup_skipped_on_placement_failure envPlacementFail argsSample []⟩

/-- C5: in a fully successful run the external calls happen in the fixed
linear order upload, sign-URL, placement batch, delete, with the delete
invoked exactly once after placement; starting from a bucket without the key,
the object under the key exists exactly during the window between the upload
call and that single delete call. -/
theorem orchestrator_linear_order (env : Env) (a : OrchestratorArgs)
    (initStore : List String)
    (hu : env.uploadOk = true) (hs : env.signOk = true)
    (hp : env.placementOk = true) (_hd : env.deleteOk = true)
    (hstore : a.image_file_name ∉ initStore) :
    (upload_image_and_add_to_slide env a).calls.map TimedCall.call =
      [CallKind.uploadBlob a.bucket_name
        (a.image_folder_path ++ a.image_file_name ++ a.image_file_extension)
        a.image_file_name,
       CallKind.generateSignedUrl a.bucket_name a.image_file_name
        ⟨"v4", timedeltaMinutes 1, "GET"⟩,
       CallKind.batchUpdate a.presentation_id
        (add_image_to_slide_requests env.signedUrl a.image_file_name
          a.page_object_id a.scaleX a.scaleY a.translateX a.translateY
          (pagesGet env.page)),
       CallKind.deleteBlob a.bucket_name a.image_file_name] ∧
    (∀ i : Nat, a.image_file_name ∈ storeAfter initStore
        (((upload_image_and_add_to_slide env a).calls.map TimedCall.call).take i) ↔
      1 ≤ i ∧ i ≤ 3) := by
  have hshape := calls_shape env a
  rw [hu, hs, hp] at hshape
  simp only [if_true] at hshape
  refine ⟨hshape, ?_⟩
  intro i
  rw [hshape]
  rcases i with _ | _ | _ | _ | n <;>
    simp [storeAfter, callEffect, hstore, List.take_succ_cons]

/-- Witness for C5: the fully successful sample run starting from an empty
bucket. -/
theorem orchestrator_linear_order_witness :
    envSample.uploadOk = true ∧ envSample.signOk = true ∧
    envSample.placementOk = true ∧ envSample.deleteOk = true ∧
    argsSample.image_file_name ∉ ([] : List String) ∧
    ((upload_image_and_add_to_slide envSample argsSample).calls.map
        TimedCall.call =
      [CallKind.uploadBlob argsSample.bucket_name
        (argsSample.image_folder_path ++ argsSample.image_file_name ++
          argsSample.image_file_extension)
        argsSample.image_file_name,
       CallKind.generateSignedUrl argsSample.bucket_name
        argsSample.image_file_name ⟨"v4", timedeltaMinutes 1, "GET"⟩,
       CallKind.batchUpdate argsSample.presentation_id
        (add_image_to_slide_requests envSample.signedUrl
          argsSample.image_file_name argsSample.page_object_id
          argsSample.scaleX argsSample.scaleY argsSample.translateX
          argsSample.translateY (pagesGet envSample.page)),
       CallKind.deleteBlob argsSample.bucket_name argsSample.image_file_name] ∧
    (∀ i : Nat, argsSample.image_file_name ∈ storeAfter []
        (((upload_image_and_add_to_slide envSample argsSample).calls.map
          TimedCall.call).take i) ↔
      1 ≤ i ∧ i ≤ 3)) :=
  ⟨rfl, rfl, rfl, rfl, by decide,
    orchestrator_linear_order envSample argsSample [] rfl rfl rfl rfl (by decide)⟩

/-- C6 (amended): in every successful run the reported metric `t1 - t0` is
non-negative and equals exactly the interval from URL-generation completion to
delete-call completion (upload time excluded), and it is printed with
four-decimal precision. -/
theorem exposure_window_measurement (env : Env) (a : OrchestratorArgs)
    (hu : env.uploadOk = true) (hs : env.signOk = true)
    (hp : env.placementOk = true) (hd : env.deleteOk = true)
    (hud : 0 ≤ env.uploadDur) (hsd : 0 ≤ env.signDur)
    (hpd : 0 ≤ env.placementDur) (hdd : 0 ≤ env.deleteDur) :
    ∃ t0v t1v : Rat,
      (upload_image_and_add_to_slide env a).t0 = some t0v ∧
      (upload_image_and_add_to_slide env a).t1 = some t1v ∧
      ((upload_image_and_add_to_slide env a).calls.map TimedCall.endTime)[1]? =
        some t0v ∧
      ((upload_image_and_add_to_slide env a).calls.map TimedCall.endTime)[3]? =
        some t1v ∧
      0 ≤ t1v - t0v ∧
      t1v - t0v = env.placementDur + env.deleteDur ∧
      (upload_image_and_add_to_slide env a).printed =
        some ("Image was accessible for " ++ formatFixed4 (t1v - t0v) ++
          " second(s).") := by
  obtain ⟨uOk, sOk, pOk, dOk, uD, sD, pD, dD, st, pg, su⟩ := env
  subst hu
  subst hs
  subst hp
  subst hd
  simp only at hud hsd hpd hdd
  refine ⟨st + uD + sD, st + uD + sD + pD + dD, ?_, ?_, ?_, ?_, ?_, ?_, ?_⟩ <;>
    simp [upload_image_and_add_to_slide, generate_download_signed_url_v4]
  · linarith
  · ring

/-- Witness for C6 at the sample environment with all durations positive. -/
theorem exposure_window_measurement_witness :
    (envSample.uploadOk = true ∧ envSample.signOk = true ∧
      envSample.placementOk = true ∧ envSample.deleteOk = true ∧
      0 ≤ envSample.uploadDur ∧ 0 ≤ envSample.signDur ∧
      0 ≤ envSample.placementDur ∧ 0 ≤ envSample.deleteDur) ∧
    ∃ t0v t1v : Rat,
      (upload_image_and_add_to_slide envSample argsSample).t0 = some t0v ∧
      (upload_image_and_add_to_slide envSample argsSample).t1 = some t1v ∧
      ((upload_image_and_add_to_slide envSample argsSample).calls.map
        TimedCall.endTime)[1]? = some t0v ∧
      ((upload_image_and_add_to_slide envSample argsSample).calls.map
        TimedCall.endTime)[3]? = some t1v ∧
      0 ≤ t1v - t0v ∧
      t1v - t0v = envSample.placementDur + envSample.deleteDur ∧
      (upload_image_and_add_to_slide envSample argsSample).printed =
        some ("Image was accessible for " ++ formatFixed4 (t1v - t0v) ++
          " second(s).") :=
  ⟨⟨rfl, rfl, rfl, rfl, by decide, by decide, by decide, by decide⟩,
    exposure_window_measurement envSample argsSample rfl rfl rfl rfl
      (by decide) (by decide) (by decide) (by decide)⟩

/-- C6 counterexample: in the sample run URL generation completes at time 3,
the delete call is invoked at time 5 and returns at time 10, and the reported
metric is 10 - 3 = 7 second(s), which differs from the interval 5 - 3 between
URL-generation completion and delete-call invocation. -/
theorem exposure_window_invocation_counterexample :
    (upload_image_and_add_to_slide envSample argsSample).success = true ∧
    (upload_image_and_add_to_slide envSample argsSample).t0 = some 3 ∧
    (upload_image_and_add_to_slide envSample argsSample).t1 = some 10 ∧
    ((upload_image_and_add_to_slide envSample argsSample).calls.map
      TimedCall.endTime)[1]? = some 3 ∧
    ((upload_image_and_add_to_slide envSample argsSample).calls.map
      TimedCall.startTime)[3]? = some 5 ∧
    ¬((10 : Rat) - 3 = 5 - 3) := by
  refine ⟨rfl, ?_, ?_, ?_, ?_, by norm_num⟩ <;>
    norm_num [upload_image_and_add_to_slide, generate_download_signed_url_v4,
      envSample, argsSample]

theorem objectId_of_mem_requests (image_url image_name page_object_id : String)
    (sx sy tx ty : Rat) (page_info : Option (List PageElement))
    (r : SlidesRequest)
    (h : r ∈ add_image_to_slide_requests image_url image_name page_object_id
      sx sy tx ty page_info) : r.objectId = image_name := by
  unfold add_image_to_slide_requests at h
  rcases List.mem_append.mp h with h1 | h1
  · by_cases hm : image_name ∈ objects_on_page page_info
    · rw [if_pos hm] at h1
      rw [List.mem_singleton.mp h1]
      rfl
    · rw [if_neg hm] at h1
      exact absurd h1 (List.not_mem_nil _)
  · rw [List.mem_singleton.mp h1]
    rfl

theorem call_mem_cases (env : Env) (a : OrchestratorArgs) (c : CallKind)
    (h : c ∈ (upload_image_and_add_to_slide env a).calls.map TimedCall.call) :
    c = CallKind.uploadBlob a.bucket_name
      (a.image_folder_path ++ a.image_file_name ++ a.image_file_extension)
      a.image_file_name ∨
    c = CallKind.generateSignedUrl a.bucket_name a.image_file_name
      ⟨"v4", timedeltaMinutes 1, "GET"⟩ ∨
    c = CallKind.batchUpdate a.presentation_id
      (add_image_to_slide_requests env.signedUrl a.image_file_name
        a.page_object_id a.scaleX a.scaleY a.translateX a.translateY
        (pagesGet env.page)) ∨
    c = CallKind.deleteBlob a.bucket_name a.image_file_name := by
  rw [calls_shape] at h
  rcases List.mem_cons.mp h with h1 | h1
  · exact Or.inl h1
  · by_cases hu : env.uploadOk = true
    · rw [if_pos hu] at h1
      rcases List.mem_cons.mp h1 with h2 | h2
      · exact Or.inr (Or.inl h2)
      · by_cases hsk : env.signOk = true
        · rw [if_pos hsk] at h2
          rcases List.mem_cons.mp h2 with h3 | h3
          · exact Or.inr (Or.inr (Or.inl h3))
          · by_cases hpk : env.placementOk = true
            · rw [if_pos hpk] at h3
              exact Or.inr (Or.inr (Or.inr (List.mem_singleton.mp h3)))
            · rw [if_neg hpk] at h3
              exact absurd h3 (List.not_mem_nil _)
        · rw [if_neg hsk] at h2
          exact absurd h2 (List.not_mem_nil _)
    · rw [if_neg hu] at h1
      exact absurd h1 (List.not_mem_nil _)

/-- C9: every external call of the orchestrator uses the extension-free
`image_file_name` uniformly: as the storage key in upload, sign-URL and
delete, and as the element identifier of every batch request, while the
uploaded local path is the folder path concatenated with the file name and
the extension. -/
theorem file_name_used_uniformly (env : Env) (a : OrchestratorArgs)
    (tc : TimedCall) (h : tc ∈ (upload_image_and_add_to_slide env a).calls) :
    (∀ b p k, tc.call = CallKind.uploadBlob b p k →
      b = a.bucket_name ∧
      p = a.image_folder_path ++ a.image_file_name ++ a.image_file_extension ∧
      k = a.image_file_name) ∧
    (∀ b k r, tc.call = CallKind.generateSignedUrl b k r →
      b = a.bucket_name ∧ k = a.image_file_name) ∧
    (∀ pid reqs, tc.call = CallKind.batchUpdate pid reqs →
      ∀ r ∈ reqs, r.objectId = a.image_file_name) ∧
    (∀ b k, tc.call = CallKind.deleteBlob b k →
      b = a.bucket_name ∧ k = a.image_file_name) := by
  rcases call_mem_cases env a tc.call (List.mem_map_of_mem _ h) with
    hc | hc | hc | hc <;> rw [hc] <;> refine ⟨?_, ?_, ?_, ?_⟩
  · intro b p k heq
    injection heq with h1 h2 h3
    exact ⟨h1.symm, h2.symm, h3.symm⟩
  · intro b k r heq
    exact absurd heq (by simp)
  · intro pid reqs heq
    exact absurd heq (by simp)
  · intro b k heq
    exact absurd heq (by simp)
  · intro b p k heq
    exact absurd heq (by simp)
  · intro b k r heq
    injection heq with h1 h2 h3
    exact ⟨h1.symm, h2.symm⟩
  · intro pid reqs heq
    exact absurd heq (by simp)
  · intro b k heq
    exact absurd heq (by simp)
  · intro b p k heq
    exact absurd heq (by simp)
  · intro b k r heq
    exact absurd heq (by simp)
  · intro pid reqs heq
    injection heq with h1 h2
    subst h2
    intro r hr
    exact objectId_of_mem_requests _ _ _ _ _ _ _ _ r hr
  · intro b k heq
    exact absurd heq (by simp)
  · intro b p k heq
    exact absurd heq (by simp)
  · intro b k r heq
    exact absurd heq (by simp)
  · intro pid reqs heq
    exact absurd heq (by simp)
  · intro b k heq
    injection heq with h1 h2
    exact ⟨h1.symm, h2.symm⟩

/-- Witness for C9 at the upload call of the sample run. -/
theorem file_name_used_uniformly_witness :
    (⟨CallKind.uploadBlob "bucket" "pictures/image_1.png" "image_1",
        (0 : Rat), (0 : Rat) + 1⟩ : TimedCall) ∈
      (upload_image_and_add_to_slide envSample argsSample).calls ∧
    ((∀ b p k,
      (⟨CallKind.uploadBlob "bucket" "pictures/image_1.png" "image_1",
        (0 : Rat), (0 : Rat) + 1⟩ : TimedCall).call = CallKind.uploadBlob b p k →
      b = argsSample.bucket_name ∧
      p = argsSample.image_folder_path ++ argsSample.image_file_name ++
        argsSample.image_file_extension ∧
      k = argsSample.image_file_name) ∧
    (∀ b k r,
      (⟨CallKind.uploadBlob "bucket" "pictures/image_1.png" "image_1",
        (0 : Rat), (0 : Rat) + 1⟩ : TimedCall).call =
          CallKind.generateSignedUrl b k r →
      b = argsSample.bucket_name ∧ k = argsSample.image_file_name) ∧
    (∀ pid reqs,
      (⟨CallKind.uploadBlob "bucket" "pictures/image_1.png" "image_1",
        (0 : Rat), (0 : Rat) + 1⟩ : TimedCall).call =
          CallKind.batchUpdate pid reqs →
      ∀ r ∈ reqs, r.objectId = argsSample.image_file_name) ∧
    (∀ b k,
      (⟨CallKind.uploadBlob "bucket" "pictures/image_1.png" "image_1",
        (0 : Rat), (0 : Rat) + 1⟩ : TimedCall).call = CallKind.deleteBlob b k →
      b = argsSample.bucket_name ∧ k = argsSample.image_file_name)) :=
  ⟨List.mem_cons_self _ _,
    file_name_used_uniformly envSample argsSample _ (List.mem_cons_self _ _)⟩

end SlidesUploader
